import Mathlib

/-!
Verification of the FLAC extractor (media/extractors/flac/FLACExtractor.cpp).

The file shallowly embeds the extractor's data model and operations:
stream-parameter validation and track-metadata population (FLACParser::init),
the metadata callback, the one-shot write protocol (FLACParser::writeCallback
and FLACParser::readBuffer), the seek computation and status mapping of
FLACSource::read, the float-output policy (shouldExtractorOutputFloat and the
track accessors), the sample-format conversions, and the container sniffer.

The libFLAC decoding engine is external to the repository; it appears here
only through its interface contract: each drive step
(process_single / seek_absolute / process_until_end_of_metadata) either fails
or succeeds and delivers a sequence of callback events chosen by the engine.
Theorems quantify over those engine behaviours.
-/

namespace FLACModel

/-- Privileged media UID, AID_MEDIA from android_filesystem_config.h. -/
def AID_MEDIA : Nat := 1013

/-- `kMaxChannels = FCC_8` in FLACParser. -/
def kMaxChannels : Nat := 8

/-- `shouldExtractorOutputFloat`: float output only for sources wider than
16 bits when the binder caller is the media UID. -/
def shouldExtractorOutputFloat (bitsPerSample : Nat) (callingUid : Nat) : Bool :=
  decide (bitsPerSample > 16) && decide (callingUid = AID_MEDIA)

/-- The android `status_t` values this file produces (utils/Errors.h). -/
inductive Status where
  | OK
  | NO_INIT
deriving DecidableEq, Repr

/-- The `media_status_t` values this file produces (NdkMediaError.h). -/
inductive MediaStatus where
  | AMEDIA_OK
  | AMEDIA_ERROR_END_OF_STREAM
  | AMEDIA_ERROR_UNKNOWN
deriving DecidableEq, Repr

/-- The fields of `FLAC__StreamMetadata_StreamInfo` the extractor reads. -/
structure StreamInfo where
  max_blocksize : Nat
  sample_rate : Nat
  channels : Nat
  bits_per_sample : Nat
  total_samples : Nat
deriving DecidableEq, Repr

/-- A metadata block delivered by the engine to `FLACParser::metadataCallback`
during the metadata phase.  Only the STREAMINFO payload affects stream state;
VORBIS_COMMENT and PICTURE blocks populate file metadata and other types are
ignored, so their payloads are not modelled. -/
inductive MetadataBlock where
  | streamInfo (si : StreamInfo)
  | vorbisComment
  | picture
  | other
deriving DecidableEq, Repr

/-- The parser state mutated by `FLACParser::metadataCallback`. -/
structure ParserMetaState where
  mStreamInfoValid : Bool
  mStreamInfo : StreamInfo
deriving DecidableEq, Repr

/-- The zero-initialized stream info (`memset(&mStreamInfo, 0, ...)`). -/
def zeroStreamInfo : StreamInfo :=
  { max_blocksize := 0, sample_rate := 0, channels := 0,
    bits_per_sample := 0, total_samples := 0 }

/-- Parser metadata state at construction. -/
def initialMetaState : ParserMetaState :=
  { mStreamInfoValid := false, mStreamInfo := zeroStreamInfo }

/-- `FLACParser::metadataCallback`: the first STREAMINFO block is captured; a
second one is logged ("unexpected STREAMINFO") and otherwise ignored.
VORBIS_COMMENT and PICTURE blocks only touch file metadata; any other type is
logged and ignored.  None of those change the stream state. -/
def metadataCallback (s : ParserMetaState) (m : MetadataBlock) : ParserMetaState :=
  match m with
  | .streamInfo si =>
      if !s.mStreamInfoValid then
        { mStreamInfoValid := true, mStreamInfo := si }
      else
        s
  | _ => s

/-- The metadata phase: `FLAC__stream_decoder_process_until_end_of_metadata`
fires the metadata callback once per delivered block, in order. -/
def metadataPhase (blocks : List MetadataBlock) : ParserMetaState :=
  blocks.foldl metadataCallback initialMetaState

/-- The sample-rate switch in `FLACParser::init`. -/
def supportedSampleRate (r : Nat) : Bool :=
  r == 8000 || r == 11025 || r == 12000 || r == 16000 || r == 22050 ||
  r == 24000 || r == 32000 || r == 44100 || r == 48000 || r == 88200 ||
  r == 96000

/-- The bits-per-sample switch in `FLACParser::init`. -/
def supportedBitsPerSample (b : Nat) : Bool :=
  b == 8 || b == 16 || b == 24

/-- `MEDIA_MIMETYPE_AUDIO_RAW` from MediaDefs.cpp. -/
def MEDIA_MIMETYPE_AUDIO_RAW : String := "audio/raw"

/-- The track-metadata entries `FLACParser::init` publishes. -/
structure TrackMetadata where
  mime : String
  channelCount : Nat
  sampleRate : Nat
  bitsPerSample : Nat
  durationUs : Nat
deriving DecidableEq, Repr

/-- `FLACParser::init`.  The engine steps that can fail before validation
(decoder allocation, `init_stream`, `process_until_end_of_metadata`) are
passed as booleans; `blocks` is the sequence of metadata blocks the engine
delivers during the metadata phase.  The duration is computed in `uint64`
arithmetic: `(getTotalSamples() * 1000000LL) / getSampleRate()`. -/
def FLACParser_init (decoderNewOk initStreamOk processMetadataOk : Bool)
    (blocks : List MetadataBlock) : Status × Option TrackMetadata :=
  if !decoderNewOk then (.NO_INIT, none)
  else if !initStreamOk then (.NO_INIT, none)
  else if !processMetadataOk then (.NO_INIT, none)
  else
    let st := metadataPhase blocks
    if st.mStreamInfoValid then
      let si := st.mStreamInfo
      if si.channels = 0 ∨ si.channels > kMaxChannels then (.NO_INIT, none)
      else if !supportedBitsPerSample si.bits_per_sample then (.NO_INIT, none)
      else if !supportedSampleRate si.sample_rate then (.NO_INIT, none)
      else
        (.OK, some {
          mime := MEDIA_MIMETYPE_AUDIO_RAW,
          channelCount := si.channels,
          sampleRate := si.sample_rate,
          bitsPerSample := si.bits_per_sample,
          durationUs := si.total_samples * 1000000 % 2 ^ 64 / si.sample_rate })
    else (.NO_INIT, none)

/-- `FLACExtractor::countTracks`: one track iff `mInitCheck == OK`. -/
def FLACExtractor_countTracks (mInitCheck : Status) : Nat :=
  if mInitCheck = .OK then 1 else 0

/-- The two PCM encodings the extractor can report
(`kAudioEncodingPcm16bit` / `kAudioEncodingPcmFloat`). -/
inductive PcmEncoding where
  | pcm16bit
  | pcmFloat
deriving DecidableEq, Repr

/-- `FLACExtractor::getTrack`: returns the `outputFloat` policy flag the new
`FLACSource` is constructed with, or `none` when no track exists. -/
def FLACExtractor_getTrack (mInitCheck : Status) (index : Nat)
    (bitsPerSample callingUid : Nat) : Option Bool :=
  if mInitCheck ≠ .OK ∨ index > 0 then none
  else some (shouldExtractorOutputFloat bitsPerSample callingUid)

/-- `FLACExtractor::getTrackMetaData` (the `AMediaFormat_copy` step is
modelled as succeeding; on success the PCM-encoding key is attached). -/
def FLACExtractor_getTrackMetaData (mInitCheck : Status) (index : Nat)
    (trackMeta : TrackMetadata) (bitsPerSample callingUid : Nat) :
    MediaStatus × Option (TrackMetadata × PcmEncoding) :=
  if mInitCheck ≠ .OK ∨ index > 0 then (.AMEDIA_ERROR_UNKNOWN, none)
  else
    (.AMEDIA_OK, some (trackMeta,
      if shouldExtractorOutputFloat bitsPerSample callingUid then
        .pcmFloat
      else
        .pcm16bit))

/-- `FLACSource::getFormat` (the `AMediaFormat_copy` step is modelled as
succeeding). -/
def FLACSource_getFormat (mOutputFloat : Bool) (trackMeta : TrackMetadata) :
    MediaStatus × (TrackMetadata × PcmEncoding) :=
  (.AMEDIA_OK, (trackMeta, if mOutputFloat then .pcmFloat else .pcm16bit))

/-- Two's-complement truncation to a signed 16-bit value (the implicit
`short` conversion in `copyTo16Signed`). -/
def toInt16 (v : Int) : Int := (v + 2 ^ 15) % 2 ^ 16 - 2 ^ 15

/-- Two's-complement truncation to a signed 32-bit value (the `int` result
width of the C left shift). -/
def toInt32 (v : Int) : Int := (v + 2 ^ 31) % 2 ^ 32 - 2 ^ 31

/-- `const unsigned leftShift = 16 - bitsPerSample;` in `copyTo16Signed`:
`uint32` subtraction, wrapping modulo `2^32`. -/
def leftShift16 (bitsPerSample : Nat) : Nat :=
  (2 ^ 32 + 16 - bitsPerSample) % 2 ^ 32

/-- `const unsigned leftShift = 32 - bitsPerSample;` in `copyToFloat`. -/
def leftShift32 (bitsPerSample : Nat) : Nat :=
  (2 ^ 32 + 32 - bitsPerSample) % 2 ^ 32

/-- One sample of `copyTo16Signed`: `*dst++ = src[c][i] << leftShift`, the
`int` shift result converted to `short`.  A shift count of 32 or more is
undefined behaviour for a 32-bit `int` in C, modelled as `none`. -/
def convert16 (bitsPerSample : Nat) (v : Int) : Option Int :=
  let ls := leftShift16 bitsPerSample
  if ls < 32 then some (toInt16 (toInt32 (v * 2 ^ ls))) else none

/-- The signed 32-bit integer handed to `float_from_i32` for one sample of
`copyToFloat`: `src[c][i] << leftShift`.  A shift count of 32 or more is
undefined behaviour, modelled as `none`. -/
def convertFloatArg (bitsPerSample : Nat) (v : Int) : Option Int :=
  let ls := leftShift32 bitsPerSample
  if ls < 32 then some (toInt32 (v * 2 ^ ls)) else none

/-- The interleaving order of both copy loops: time-major, channel-minor
(`for i < nSamples: for c < nChannels: src[c][i]`). -/
def interleave (src : List (List Int)) (nSamples nChannels : Nat) : List Int :=
  (List.range nSamples).flatMap fun i =>
    (List.range nChannels).map fun c => (src.getD c []).getD i 0

/-- `copyTo16Signed`: interleave and convert every sample; `none` if the
per-sample shift is undefined. -/
def copyTo16Signed (src : List (List Int)) (nSamples nChannels bitsPerSample : Nat) :
    Option (List Int) :=
  (interleave src nSamples nChannels).mapM (convert16 bitsPerSample)

/-- `copyToFloat`, up to the exact float conversion: the list of signed
32-bit integers handed to `float_from_i32`, in output order. -/
def copyToFloatArgs (src : List (List Int)) (nSamples nChannels bitsPerSample : Nat) :
    Option (List Int) :=
  (interleave src nSamples nChannels).mapM (convertFloatArg bitsPerSample)

/-- The fields of `FLAC__FrameHeader` the extractor reads.  `readBuffer`
asserts `number_type == FLAC__FRAME_NUMBER_TYPE_SAMPLE_NUMBER`, which always
holds for frames delivered by `process_single`, so the header carries the
sample number directly. -/
structure FrameHeader where
  blocksize : Nat
  sample_rate : Nat
  channels : Nat
  bits_per_sample : Nat
  sample_number : Nat
deriving DecidableEq, Repr

/-- The one-shot write state of FLACParser (`mWriteRequested`,
`mWriteCompleted`, `mWriteHeader`, `mWriteBuffer`). -/
structure WriteState where
  mWriteRequested : Bool
  mWriteCompleted : Bool
  mWriteHeader : FrameHeader
  mWriteBuffer : List (List Int)
deriving DecidableEq, Repr

/-- `FLAC__StreamDecoderWriteStatus`. -/
inductive WriteStatus where
  | CONTINUE
  | ABORT
deriving DecidableEq, Repr

/-- `FLACParser::writeCallback`: armed, it disarms, captures the frame
header, copies the first `getChannels()` plane pointers (`memmove`) and
marks completion; unarmed, it logs "unexpected" and aborts. -/
def writeCallback (channels : Nat) (s : WriteState)
    (frame : FrameHeader) (buffer : List (List Int)) : WriteState × WriteStatus :=
  if s.mWriteRequested then
    ({ mWriteRequested := false,
       mWriteCompleted := true,
       mWriteHeader := frame,
       mWriteBuffer := buffer.take channels ++ s.mWriteBuffer.drop channels },
     .CONTINUE)
  else
    (s, .ABORT)

/-- One decoded-frame push from the engine: frame header plus channel
planes. -/
structure FramePush where
  header : FrameHeader
  planes : List (List Int)
deriving DecidableEq, Repr

/-- Modelled from the spec: one engine drive step (`process_single` or
`seek_absolute`) delivers a sequence of frame pushes to the registered write
callback; the step fails as soon as a callback returns ABORT, and otherwise
reports the engine's own success flag (false on I/O error, seek failure or
decode failure). -/
def driveStep (channels : Nat) (s : WriteState) (pushes : List FramePush)
    (engineOk : Bool) : WriteState × Bool :=
  match pushes with
  | [] => (s, engineOk)
  | p :: rest =>
      match writeCallback channels s p.header p.planes with
      | (s1, .ABORT) => (s1, false)
      | (s1, .CONTINUE) => driveStep channels s1 rest engineOk

/-- The media buffer `FLACParser::readBuffer` returns: logical byte length,
presentation time, sync-frame mark, and the inputs handed to the sample
formatter (`copyTo16Signed` / `copyToFloat`). -/
structure OutBuffer where
  size : Nat
  timeUs : Nat
  isSyncFrame : Bool
  planes : List (List Int)
  blocksize : Nat
  nChannels : Nat
  bitsPerSample : Nat
  outputFloat : Bool
deriving DecidableEq, Repr

/-- `FLACParser::getOutputSampleSize`. -/
def getOutputSampleSize (mOutputFloat : Bool) : Nat :=
  if mOutputFloat then 4 else 2

/-- `FLACParser::readBuffer(doSeek, sample)`.  `si` is the validated stream
info captured at init; `s` the current write state.  The engine's behaviour
during the drive step (seek_absolute when `doSeek`, else process_single) is
an input: the pushes it delivers and its own success flag.  `acquireOk`
models `mGroup->acquire_buffer`. -/
def FLACParser_readBuffer (mOutputFloat : Bool) (si : StreamInfo)
    (s : WriteState) (_doSeek : Bool) (_sample : Nat) (pushes : List FramePush)
    (engineOk : Bool) (acquireOk : Bool) : WriteState × Option OutBuffer :=
  let s0 : WriteState := { s with mWriteRequested := true, mWriteCompleted := false }
  let r := driveStep si.channels s0 pushes engineOk
  let s1 := r.1
  if !r.2 then (s1, none)
  else if !s1.mWriteCompleted then (s1, none)
  else if s1.mWriteHeader.blocksize = 0 ∨ s1.mWriteHeader.blocksize > si.max_blocksize then
    (s1, none)
  else if s1.mWriteHeader.sample_rate ≠ si.sample_rate ∨
          s1.mWriteHeader.channels ≠ si.channels ∨
          s1.mWriteHeader.bits_per_sample ≠ si.bits_per_sample then
    (s1, none)
  else if !acquireOk then (s1, none)
  else
    (s1, some {
      size := s1.mWriteHeader.blocksize * si.channels * getOutputSampleSize mOutputFloat,
      timeUs := 1000000 * s1.mWriteHeader.sample_number % 2 ^ 64 / si.sample_rate,
      isSyncFrame := true,
      planes := s1.mWriteBuffer,
      blocksize := s1.mWriteHeader.blocksize,
      nChannels := si.channels,
      bitsPerSample := si.bits_per_sample,
      outputFloat := mOutputFloat })

/-- The seek-target computation in `FLACSource::read`: non-positive times
map to sample 0, otherwise `seekTimeUs * sampleRate / 1000000` (both
operands non-negative, so C truncating division agrees with Nat division),
clamped to `totalSamples` when it reaches it. -/
def seekTargetSample (seekTimeUs : Int) (si : StreamInfo) : Nat :=
  if seekTimeUs ≤ 0 then 0
  else
    let sample := seekTimeUs.toNat * si.sample_rate / 1000000
    if sample ≥ si.total_samples then si.total_samples else sample

/-- The outcome of `FLACSource::read`: the out-parameter buffer and the
returned status. -/
structure ReadResult where
  buffer : Option OutBuffer
  status : MediaStatus
deriving DecidableEq, Repr

/-- `FLACSource::read`: an optional seek request is converted to a clamped
sample index and dispatched to `readBuffer(sample)`, otherwise
`readBuffer()`; a null buffer maps to `AMEDIA_ERROR_END_OF_STREAM`, any
buffer to `AMEDIA_OK`. -/
def FLACSource_read (mOutputFloat : Bool) (si : StreamInfo) (s : WriteState)
    (seekRequest : Option Int) (pushes : List FramePush)
    (engineOk acquireOk : Bool) : WriteState × ReadResult :=
  let r :=
    match seekRequest with
    | some seekTimeUs =>
        FLACParser_readBuffer mOutputFloat si s true
          (seekTargetSample seekTimeUs si) pushes engineOk acquireOk
    | none =>
        FLACParser_readBuffer mOutputFloat si s false 0 pushes engineOk acquireOk
  (r.1, { buffer := r.2,
          status := if r.2.isSome then .AMEDIA_OK else .AMEDIA_ERROR_END_OF_STREAM })

/-- The 8-byte magic `SniffFLAC` compares against:
`"fLaC\0\0\0\042"` (0x22 = 34 = size of the mandatory STREAMINFO block). -/
def flacMagic : List Nat := [0x66, 0x4C, 0x61, 0x43, 0x00, 0x00, 0x00, 0x22]

/-- `SniffFLAC`: `readResult` is the outcome of `readAt(0, header, 8)` —
`none` for a read error, `some bytes` for the bytes actually read.  The
sniff succeeds iff exactly 8 bytes were read and they equal the magic; on
success the confidence is the constant 0.5. -/
def SniffFLAC (readResult : Option (List Nat)) : Bool × Option Rat :=
  match readResult with
  | none => (false, none)
  | some header =>
      if header.length = 8 ∧ header = flacMagic then (true, some (1 / 2))
      else (false, none)

/-! Concrete streams used by witnesses and counterexamples. -/

/-- A valid 24-bit stereo stream declaration. -/
def si24 : StreamInfo :=
  { max_blocksize := 4096, sample_rate := 44100, channels := 2,
    bits_per_sample := 24, total_samples := 1000 }

/-- The mono, 44100 Hz, 16-bit stream of the spec's concrete scenario,
declaring 1000 total samples. -/
def siMono16 : StreamInfo :=
  { max_blocksize := 4096, sample_rate := 44100, channels := 1,
    bits_per_sample := 16, total_samples := 1000 }

/-- A second, different valid stream declaration, used as a duplicate
STREAMINFO payload. -/
def siDup : StreamInfo :=
  { max_blocksize := 16, sample_rate := 8000, channels := 1,
    bits_per_sample := 8, total_samples := 0 }

/-- Claim C1: a 24-bit stream passes init validation and, for a
non-privileged caller (UID 1000 ≠ AID_MEDIA), getTrack selects the 16-bit
output path; there `copyTo16Signed` computes the unsigned shift count
`16 - 24 = 2^32 - 8`, which is not below the 32-bit integer width, so the
per-sample shift is undefined — the claim's assertion that the shift
`16 - B` is well-defined for every bit depth reaching the 16-bit path fails
at B = 24. -/
theorem c1_bit24_reaches_16bit_path_with_undefined_shift :
    (FLACParser_init true true true [MetadataBlock.streamInfo si24]).1 = Status.OK ∧
    FLACExtractor_getTrack Status.OK 0 24 1000 = some false ∧
    shouldExtractorOutputFloat 24 1000 = false ∧
    leftShift16 24 = 4294967288 ∧
    ¬ leftShift16 24 < 32 ∧
    convert16 24 0 = none ∧
    copyTo16Signed [[0], [0]] 1 2 24 = none := by
  refine ⟨by decide, by decide, by decide, by decide, by decide, by decide, ?_⟩
  decide

/-- The track metadata `FLACParser::init` publishes for `siMono16`. -/
def mdMono16 : TrackMetadata :=
  { mime := MEDIA_MIMETYPE_AUDIO_RAW, channelCount := 1, sampleRate := 44100,
    bitsPerSample := 16, durationUs := 22675 }

/-- Claim C2, counterexample to the quoted example: for a 44100 Hz stream
declaring 1000 total samples, the truncating division
`1000 * 1000000 / 44100` yields 22675 µs, not the 22676 µs the claim
states. -/
theorem c2_duration_example_is_22675 :
    (FLACParser_init true true true [MetadataBlock.streamInfo siMono16]).2 =
      some mdMono16 ∧
    mdMono16.durationUs = 22675 ∧ (22675 : Nat) ≠ 22676 := by
  refine ⟨?_, by decide, by decide⟩
  decide

/-- Claim C2 (amended): for every stream whose initialization succeeds, the
published TrackMetadata reports the raw-audio mime type, and channel count,
sample rate and bits per sample exactly equal to the stream-parameter block
captured in the metadata phase; the duration equals
`totalSamples * 1000000 / sampleRate` with truncating division (the `uint64`
product does not wrap for any product below `2^64`; libFLAC stores
`total_samples` in 36 bits). -/
theorem c2_track_metadata_matches_stream_parameters :
    ∀ (blocks : List MetadataBlock) (md : TrackMetadata),
      (FLACParser_init true true true blocks).2 = some md →
      md.mime = MEDIA_MIMETYPE_AUDIO_RAW ∧
      md.channelCount = (metadataPhase blocks).mStreamInfo.channels ∧
      md.sampleRate = (metadataPhase blocks).mStreamInfo.sample_rate ∧
      md.bitsPerSample = (metadataPhase blocks).mStreamInfo.bits_per_sample ∧
      ((metadataPhase blocks).mStreamInfo.total_samples * 1000000 < 2 ^ 64 →
        md.durationUs =
          (metadataPhase blocks).mStreamInfo.total_samples * 1000000 /
            (metadataPhase blocks).mStreamInfo.sample_rate) := by
  intro blocks md h
  unfold FLACParser_init at h
  simp only [Bool.not_true, Bool.false_eq_true, if_false] at h
  set st := metadataPhase blocks with hst
  by_cases hv : st.mStreamInfoValid
  · simp only [hv, if_true] at h
    split at h
    · exact absurd h (by simp)
    · split at h
      · exact absurd h (by simp)
      · split at h
        · exact absurd h (by simp)
        · simp only [Option.some.injEq] at h
          subst h
          refine ⟨rfl, rfl, rfl, rfl, fun hlt => ?_⟩
          norm_num at hlt ⊢
          rw [Nat.mod_eq_of_lt hlt]
  · simp only [hv, if_false] at h
    exact absurd h (by simp)

/-- Witness for claim C2's theorem at the concrete mono 44100 Hz stream. -/
theorem c2_track_metadata_matches_stream_parameters_witness :
    mdMono16.mime = MEDIA_MIMETYPE_AUDIO_RAW ∧
    mdMono16.channelCount =
      (metadataPhase [MetadataBlock.streamInfo siMono16]).mStreamInfo.channels ∧
    mdMono16.sampleRate =
      (metadataPhase [MetadataBlock.streamInfo siMono16]).mStreamInfo.sample_rate ∧
    mdMono16.bitsPerSample =
      (metadataPhase [MetadataBlock.streamInfo siMono16]).mStreamInfo.bits_per_sample ∧
    ((metadataPhase [MetadataBlock.streamInfo siMono16]).mStreamInfo.total_samples
        * 1000000 < 2 ^ 64 →
      mdMono16.durationUs =
        (metadataPhase [MetadataBlock.streamInfo siMono16]).mStreamInfo.total_samples
          * 1000000 /
          (metadataPhase [MetadataBlock.streamInfo siMono16]).mStreamInfo.sample_rate) :=
  c2_track_metadata_matches_stream_parameters
    [MetadataBlock.streamInfo siMono16] mdMono16 (by decide)

/-- Claim C4, counterexample: delivering a second (duplicate) STREAMINFO
block during the metadata phase does not fail initialization — with a valid
first block, init returns OK and one track is reported, not zero. -/
theorem c4_duplicate_streaminfo_init_succeeds :
    (FLACParser_init true true true
        [MetadataBlock.streamInfo siMono16, MetadataBlock.streamInfo siDup]).1 =
      Status.OK ∧
    FLACExtractor_countTracks
      (FLACParser_init true true true
        [MetadataBlock.streamInfo siMono16, MetadataBlock.streamInfo siDup]).1 = 1 := by
  refine ⟨?_, ?_⟩ <;> decide

/-- The bits-per-sample switch accepts exactly 8, 16 and 24. -/
lemma supportedBitsPerSample_iff (b : Nat) :
    supportedBitsPerSample b = true ↔ b ∈ ([8, 16, 24] : List Nat) := by
  simp [supportedBitsPerSample]
  tauto

/-- The sample-rate switch accepts exactly the eleven canonical rates. -/
lemma supportedSampleRate_iff (r : Nat) :
    supportedSampleRate r = true ↔
      r ∈ ([8000, 11025, 12000, 16000, 22050, 24000, 32000, 44100, 48000,
            88200, 96000] : List Nat) := by
  simp [supportedSampleRate]
  tauto

/-- Characterization of a successful `FLACParser::init` once the engine
phases themselves succeed. -/
lemma FLACParser_init_OK_iff (blocks : List MetadataBlock) :
    (FLACParser_init true true true blocks).1 = Status.OK ↔
      ((metadataPhase blocks).mStreamInfoValid = true ∧
       ¬((metadataPhase blocks).mStreamInfo.channels = 0 ∨
         kMaxChannels < (metadataPhase blocks).mStreamInfo.channels) ∧
       supportedBitsPerSample (metadataPhase blocks).mStreamInfo.bits_per_sample = true ∧
       supportedSampleRate (metadataPhase blocks).mStreamInfo.sample_rate = true) := by
  unfold FLACParser_init
  set st := metadataPhase blocks with hst
  cases hv : st.mStreamInfoValid <;>
    cases hb : supportedBitsPerSample st.mStreamInfo.bits_per_sample <;>
    cases hr : supportedSampleRate st.mStreamInfo.sample_rate <;>
    by_cases hch : st.mStreamInfo.channels = 0 ∨ kMaxChannels < st.mStreamInfo.channels <;>
    simp [hv, hb, hr, hch]

set_option linter.unnecessarySeqFocus false in
/-- Claim C3: with the engine phases succeeding, initialization fails — and
the container reports zero tracks — if and only if the stream-parameters
block is absent after the metadata phase, or its channel count is 0 or above
8, or its bit depth is outside {8,16,24}, or its sample rate is outside the
eleven canonical rates. -/
theorem c3_zero_tracks_iff_invalid_stream_parameters :
    ∀ blocks : List MetadataBlock,
      FLACExtractor_countTracks (FLACParser_init true true true blocks).1 = 0 ↔
        ((metadataPhase blocks).mStreamInfoValid = false ∨
         (metadataPhase blocks).mStreamInfo.channels = 0 ∨
         8 < (metadataPhase blocks).mStreamInfo.channels ∨
         (metadataPhase blocks).mStreamInfo.bits_per_sample ∉ ([8, 16, 24] : List Nat) ∨
         (metadataPhase blocks).mStreamInfo.sample_rate ∉
           ([8000, 11025, 12000, 16000, 22050, 24000, 32000, 44100, 48000,
             88200, 96000] : List Nat)) := by
  intro blocks
  have hz : FLACExtractor_countTracks (FLACParser_init true true true blocks).1 = 0 ↔
      ¬(FLACParser_init true true true blocks).1 = Status.OK := by
    unfold FLACExtractor_countTracks
    by_cases hs : (FLACParser_init true true true blocks).1 = Status.OK <;> simp [hs]
  rw [hz, FLACParser_init_OK_iff, supportedBitsPerSample_iff, supportedSampleRate_iff]
  have h8 : kMaxChannels = 8 := rfl
  rw [h8]
  cases hv : (metadataPhase blocks).mStreamInfoValid <;> simp [hv] <;> omega

/-- Claim C4 (amended): a second stream-parameters block delivered during
the metadata phase is logged and ignored; the first occurrence wins, and
initialization proceeds exactly as if the duplicate had not been
delivered. -/
theorem c4_duplicate_streaminfo_ignored_first_wins :
    ∀ (si1 si2 : StreamInfo) (rest : List MetadataBlock),
      FLACParser_init true true true
          (MetadataBlock.streamInfo si1 :: MetadataBlock.streamInfo si2 :: rest) =
        FLACParser_init true true true (MetadataBlock.streamInfo si1 :: rest) := by
  intro si1 si2 rest
  rfl

/-- The state `readBuffer` leaves behind is always the state after the drive
step, whatever branch produced the result. -/
lemma FLACParser_readBuffer_fst (mOutputFloat : Bool) (si : StreamInfo)
    (s : WriteState) (doSeek : Bool) (sample : Nat) (pushes : List FramePush)
    (engineOk acquireOk : Bool) :
    (FLACParser_readBuffer mOutputFloat si s doSeek sample pushes engineOk acquireOk).1 =
      (driveStep si.channels
        { s with mWriteRequested := true, mWriteCompleted := false }
        pushes engineOk).1 := by
  simp only [FLACParser_readBuffer]
  split
  · rfl
  · split
    · rfl
    · split
      · rfl
      · split
        · rfl
        · split
          · rfl
          · rfl

/-- If `readBuffer` hands back a buffer, then the drive step succeeded, a
write completed, the captured frame passed every validation against the
stream parameters, and buffer acquisition succeeded; moreover the buffer's
formatter inputs come from the captured frame. -/
lemma FLACParser_readBuffer_some (mOutputFloat : Bool) (si : StreamInfo)
    (s : WriteState) (doSeek : Bool) (sample : Nat) (pushes : List FramePush)
    (engineOk acquireOk : Bool) (b : OutBuffer)
    (h : (FLACParser_readBuffer mOutputFloat si s doSeek sample pushes
            engineOk acquireOk).2 = some b) :
    (driveStep si.channels
        { s with mWriteRequested := true, mWriteCompleted := false }
        pushes engineOk).2 = true ∧
    (FLACParser_readBuffer mOutputFloat si s doSeek sample pushes
        engineOk acquireOk).1.mWriteCompleted = true ∧
    b.blocksize =
      (FLACParser_readBuffer mOutputFloat si s doSeek sample pushes
        engineOk acquireOk).1.mWriteHeader.blocksize ∧
    b.blocksize ≠ 0 ∧
    b.blocksize ≤ si.max_blocksize ∧
    (FLACParser_readBuffer mOutputFloat si s doSeek sample pushes
        engineOk acquireOk).1.mWriteHeader.sample_rate = si.sample_rate ∧
    (FLACParser_readBuffer mOutputFloat si s doSeek sample pushes
        engineOk acquireOk).1.mWriteHeader.channels = si.channels ∧
    (FLACParser_readBuffer mOutputFloat si s doSeek sample pushes
        engineOk acquireOk).1.mWriteHeader.bits_per_sample = si.bits_per_sample ∧
    acquireOk = true ∧
    b.size = b.blocksize * si.channels * getOutputSampleSize mOutputFloat ∧
    b.isSyncFrame = true ∧
    b.nChannels = si.channels ∧
    b.bitsPerSample = si.bits_per_sample ∧
    b.outputFloat = mOutputFloat := by
  rw [FLACParser_readBuffer_fst]
  simp only [FLACParser_readBuffer] at h
  split at h
  · exact absurd h (by simp)
  · split at h
    · exact absurd h (by simp)
    · split at h
      · exact absurd h (by simp)
      · split at h
        · exact absurd h (by simp)
        · split at h
          · exact absurd h (by simp)
          · simp only [Option.some.injEq] at h
            subst h
            simp_all

/-- If the write never completed during the drive step, `readBuffer` returns
no buffer. -/
lemma FLACParser_readBuffer_not_completed (mOutputFloat : Bool)
    (si : StreamInfo) (s : WriteState) (doSeek : Bool) (sample : Nat)
    (pushes : List FramePush) (engineOk acquireOk : Bool)
    (h : (FLACParser_readBuffer mOutputFloat si s doSeek sample pushes
            engineOk acquireOk).1.mWriteCompleted = false) :
    (FLACParser_readBuffer mOutputFloat si s doSeek sample pushes
        engineOk acquireOk).2 = none := by
  cases hres : (FLACParser_readBuffer mOutputFloat si s doSeek sample pushes
      engineOk acquireOk).2 with
  | none => rfl
  | some b =>
      have hc := (FLACParser_readBuffer_some mOutputFloat si s doSeek sample
        pushes engineOk acquireOk b hres).2.1
      rw [hc] at h
      exact absurd h (by simp)

/-- Claim C5: the one-shot write protocol.  (i) The push callback firing
while the armed flag is clear signals ABORT, (ii) and the drive step then
fails; (iii) firing while armed clears the flag, captures the frame header
and the channel planes, and sets the completed flag; (iv) a drive step that
finishes without the completed flag set makes the decode call return no
frame. -/
theorem c5_one_shot_write_protocol :
    (∀ (ch : Nat) (s : WriteState) (fr : FrameHeader) (buf : List (List Int)),
        s.mWriteRequested = false →
        writeCallback ch s fr buf = (s, WriteStatus.ABORT)) ∧
    (∀ (ch : Nat) (s : WriteState) (fr : FrameHeader) (buf : List (List Int))
        (rest : List FramePush) (engineOk : Bool),
        s.mWriteRequested = false →
        (driveStep ch s ({ header := fr, planes := buf } :: rest) engineOk).2 =
          false) ∧
    (∀ (ch : Nat) (s : WriteState) (fr : FrameHeader) (buf : List (List Int)),
        s.mWriteRequested = true →
        writeCallback ch s fr buf =
          ({ mWriteRequested := false, mWriteCompleted := true,
             mWriteHeader := fr,
             mWriteBuffer := buf.take ch ++ s.mWriteBuffer.drop ch },
           WriteStatus.CONTINUE)) ∧
    (∀ (mOutputFloat : Bool) (si : StreamInfo) (s : WriteState) (doSeek : Bool)
        (sample : Nat) (pushes : List FramePush) (engineOk acquireOk : Bool),
        (FLACParser_readBuffer mOutputFloat si s doSeek sample pushes
            engineOk acquireOk).1.mWriteCompleted = false →
        (FLACParser_readBuffer mOutputFloat si s doSeek sample pushes
            engineOk acquireOk).2 = none) := by
  refine ⟨?_, ?_, ?_, ?_⟩
  · intro ch s fr buf h
    simp [writeCallback, h]
  · intro ch s fr buf rest engineOk h
    simp [driveStep, writeCallback, h]
  · intro ch s fr buf h
    simp [writeCallback, h]
  · intro mOutputFloat si s doSeek sample pushes engineOk acquireOk h
    exact FLACParser_readBuffer_not_completed mOutputFloat si s doSeek sample
      pushes engineOk acquireOk h

/-- The all-zero write state at parser construction. -/
def wsIdle : WriteState :=
  { mWriteRequested := false, mWriteCompleted := false,
    mWriteHeader := { blocksize := 0, sample_rate := 0, channels := 0,
                      bits_per_sample := 0, sample_number := 0 },
    mWriteBuffer := [] }

/-- The idle state with the one-shot flag armed. -/
def wsArmed : WriteState := { wsIdle with mWriteRequested := true }

/-- A frame header consistent with `siMono16`. -/
def frMono16 : FrameHeader :=
  { blocksize := 4, sample_rate := 44100, channels := 1, bits_per_sample := 16,
    sample_number := 0 }

/-- Witness for claim C5's theorem at concrete states and frames. -/
theorem c5_one_shot_write_protocol_witness :
    (wsIdle.mWriteRequested = false ∧
      writeCallback 1 wsIdle frMono16 [[7]] = (wsIdle, WriteStatus.ABORT)) ∧
    (wsIdle.mWriteRequested = false ∧
      (driveStep 1 wsIdle [{ header := frMono16, planes := [[7]] }] true).2 =
        false) ∧
    (wsArmed.mWriteRequested = true ∧
      writeCallback 1 wsArmed frMono16 [[7]] =
        ({ mWriteRequested := false, mWriteCompleted := true,
           mWriteHeader := frMono16,
           mWriteBuffer := List.take 1 [[7]] ++ List.drop 1 wsArmed.mWriteBuffer },
         WriteStatus.CONTINUE)) ∧
    ((FLACParser_readBuffer false siMono16 wsIdle false 0 [] true
        true).1.mWriteCompleted = false ∧
      (FLACParser_readBuffer false siMono16 wsIdle false 0 [] true true).2 =
        none) :=
  ⟨⟨rfl, c5_one_shot_write_protocol.1 1 wsIdle frMono16 [[7]] rfl⟩,
   ⟨rfl, c5_one_shot_write_protocol.2.1 1 wsIdle frMono16 [[7]] [] true rfl⟩,
   ⟨rfl, c5_one_shot_write_protocol.2.2.1 1 wsArmed frMono16 [[7]] rfl⟩,
   ⟨by decide,
    c5_one_shot_write_protocol.2.2.2 false siMono16 wsIdle false 0 [] true true
      (by decide)⟩⟩

/-- Claim C6: a decode call hands back a buffer only when the captured
frame's block size is strictly positive and at most `maxBlockSize` and its
sample rate, channel count and bit depth equal the stream parameters; and a
completed write violating any of these makes the read return null. -/
theorem c6_frame_validation_gates_output :
    (∀ (mOutputFloat : Bool) (si : StreamInfo) (s : WriteState) (doSeek : Bool)
        (sample : Nat) (pushes : List FramePush) (engineOk acquireOk : Bool)
        (b : OutBuffer),
        (FLACParser_readBuffer mOutputFloat si s doSeek sample pushes
            engineOk acquireOk).2 = some b →
        0 < b.blocksize ∧ b.blocksize ≤ si.max_blocksize ∧
        b.blocksize =
          (FLACParser_readBuffer mOutputFloat si s doSeek sample pushes
            engineOk acquireOk).1.mWriteHeader.blocksize ∧
        (FLACParser_readBuffer mOutputFloat si s doSeek sample pushes
            engineOk acquireOk).1.mWriteHeader.sample_rate = si.sample_rate ∧
        (FLACParser_readBuffer mOutputFloat si s doSeek sample pushes
            engineOk acquireOk).1.mWriteHeader.channels = si.channels ∧
        (FLACParser_readBuffer mOutputFloat si s doSeek sample pushes
            engineOk acquireOk).1.mWriteHeader.bits_per_sample =
          si.bits_per_sample) ∧
    (∀ (mOutputFloat : Bool) (si : StreamInfo) (s : WriteState) (doSeek : Bool)
        (sample : Nat) (pushes : List FramePush) (engineOk acquireOk : Bool),
        ((FLACParser_readBuffer mOutputFloat si s doSeek sample pushes
            engineOk acquireOk).1.mWriteHeader.blocksize = 0 ∨
         si.max_blocksize <
           (FLACParser_readBuffer mOutputFloat si s doSeek sample pushes
             engineOk acquireOk).1.mWriteHeader.blocksize ∨
         (FLACParser_readBuffer mOutputFloat si s doSeek sample pushes
             engineOk acquireOk).1.mWriteHeader.sample_rate ≠ si.sample_rate ∨
         (FLACParser_readBuffer mOutputFloat si s doSeek sample pushes
             engineOk acquireOk).1.mWriteHeader.channels ≠ si.channels ∨
         (FLACParser_readBuffer mOutputFloat si s doSeek sample pushes
             engineOk acquireOk).1.mWriteHeader.bits_per_sample ≠
           si.bits_per_sample) →
        (FLACParser_readBuffer mOutputFloat si s doSeek sample pushes
            engineOk acquireOk).2 = none) := by
  constructor
  · intro mOutputFloat si s doSeek sample pushes engineOk acquireOk b h
    obtain ⟨-, -, heq, hne, hle, hsr, hch, hbp, -⟩ :=
      FLACParser_readBuffer_some mOutputFloat si s doSeek sample pushes
        engineOk acquireOk b h
    exact ⟨Nat.pos_of_ne_zero hne, hle, heq, hsr, hch, hbp⟩
  · intro mOutputFloat si s doSeek sample pushes engineOk acquireOk hviol
    cases hres : (FLACParser_readBuffer mOutputFloat si s doSeek sample pushes
        engineOk acquireOk).2 with
    | none => rfl
    | some b =>
        obtain ⟨-, -, heq, hne, hle, hsr, hch, hbp, -⟩ :=
          FLACParser_readBuffer_some mOutputFloat si s doSeek sample pushes
            engineOk acquireOk b hres
        rcases hviol with h0 | h0 | h0 | h0 | h0
        · rw [← heq] at h0
          exact absurd h0 hne
        · rw [← heq] at h0
          omega
        · exact absurd hsr h0
        · exact absurd hch h0
        · exact absurd hbp h0

/-- A single in-range frame push consistent with `siMono16`. -/
def pushMono16 : FramePush := { header := frMono16, planes := [[1, 2, 3, 4]] }

/-- Witness for claim C6's theorem: a concrete read that succeeds and one
whose captured frame violates the stream parameters and fails. -/
theorem c6_frame_validation_gates_output_witness :
    ((FLACParser_readBuffer false siMono16 wsIdle false 0 [pushMono16] true
        true).2 =
      some { size := 8, timeUs := 0, isSyncFrame := true,
             planes := [[1, 2, 3, 4]], blocksize := 4, nChannels := 1,
             bitsPerSample := 16, outputFloat := false } ∧
      0 < (4 : Nat) ∧ (4 : Nat) ≤ siMono16.max_blocksize) ∧
    ((FLACParser_readBuffer false siDup wsIdle false 0 [pushMono16] true
        true).1.mWriteHeader.sample_rate ≠ siDup.sample_rate ∧
      (FLACParser_readBuffer false siDup wsIdle false 0 [pushMono16] true
        true).2 = none) := by
  constructor
  · refine ⟨by decide, ?_, ?_⟩
    · decide
    · decide
  · refine ⟨by decide, ?_⟩
    exact c6_frame_validation_gates_output.2 false siDup wsIdle false 0
      [pushMono16] true true (Or.inr (Or.inr (Or.inl (by decide))))

/-- Claim C7: seek conversion and clamping in `FLACSource::read`.
Non-positive seek times map to sample 0; positive times map to
`seekTimeUs * sampleRate / 1000000`, clamped to exactly `totalSamples`
when they reach it; the seek-decode is invoked with the clamped sample; and
when no frame results the read reports end-of-stream, not a distinct
error. -/
theorem c7_seek_conversion_and_clamping :
    (∀ (t : Int) (si : StreamInfo), t ≤ 0 → seekTargetSample t si = 0) ∧
    (∀ (t : Int) (si : StreamInfo), 0 < t →
        si.total_samples ≤ t.toNat * si.sample_rate / 1000000 →
        seekTargetSample t si = si.total_samples) ∧
    (∀ (t : Int) (si : StreamInfo), 0 < t →
        t.toNat * si.sample_rate / 1000000 < si.total_samples →
        seekTargetSample t si = t.toNat * si.sample_rate / 1000000) ∧
    (∀ (mOutputFloat : Bool) (si : StreamInfo) (s : WriteState) (t : Int)
        (pushes : List FramePush) (engineOk acquireOk : Bool),
        (FLACSource_read mOutputFloat si s (some t) pushes engineOk
            acquireOk).2.buffer =
          (FLACParser_readBuffer mOutputFloat si s true (seekTargetSample t si)
            pushes engineOk acquireOk).2) ∧
    (∀ (mOutputFloat : Bool) (si : StreamInfo) (s : WriteState) (t : Int)
        (pushes : List FramePush) (engineOk acquireOk : Bool),
        (FLACParser_readBuffer mOutputFloat si s true (seekTargetSample t si)
            pushes engineOk acquireOk).2 = none →
        (FLACSource_read mOutputFloat si s (some t) pushes engineOk
            acquireOk).2.status = MediaStatus.AMEDIA_ERROR_END_OF_STREAM) := by
  refine ⟨?_, ?_, ?_, ?_, ?_⟩
  · intro t si h
    simp [seekTargetSample, h]
  · intro t si h hc
    rw [seekTargetSample, if_neg (by omega)]
    simp only [ge_iff_le, hc, if_true]
  · intro t si h hc
    rw [seekTargetSample, if_neg (by omega)]
    simp only [ge_iff_le]
    rw [if_neg (by omega)]
  · intro mOutputFloat si s t pushes engineOk acquireOk
    rfl
  · intro mOutputFloat si s t pushes engineOk acquireOk h
    simp [FLACSource_read, h]

/-- Witness for claim C7's theorem: a negative seek time, a seek far beyond
the 1000-sample stream (clamping to exactly 1000), an in-range seek, the
dispatch equation, and an end-of-stream outcome on a clamped seek. -/
theorem c7_seek_conversion_and_clamping_witness :
    ((-3 : Int) ≤ 0 ∧ seekTargetSample (-3) siMono16 = 0) ∧
    ((0 : Int) < 60000000 ∧
      siMono16.total_samples ≤ (60000000 : Int).toNat * siMono16.sample_rate / 1000000 ∧
      seekTargetSample 60000000 siMono16 = siMono16.total_samples) ∧
    ((0 : Int) < 10000 ∧
      (10000 : Int).toNat * siMono16.sample_rate / 1000000 < siMono16.total_samples ∧
      seekTargetSample 10000 siMono16 =
        (10000 : Int).toNat * siMono16.sample_rate / 1000000) ∧
    ((FLACSource_read false siMono16 wsIdle (some 60000000) [] true
        true).2.buffer =
      (FLACParser_readBuffer false siMono16 wsIdle true
        (seekTargetSample 60000000 siMono16) [] true true).2) ∧
    ((FLACParser_readBuffer false siMono16 wsIdle true
        (seekTargetSample 60000000 siMono16) [] true true).2 = none ∧
      (FLACSource_read false siMono16 wsIdle (some 60000000) [] true
        true).2.status = MediaStatus.AMEDIA_ERROR_END_OF_STREAM) :=
  ⟨⟨by decide, c7_seek_conversion_and_clamping.1 (-3) siMono16 (by decide)⟩,
   ⟨by decide, by decide,
    c7_seek_conversion_and_clamping.2.1 60000000 siMono16 (by decide) (by decide)⟩,
   ⟨by decide, by decide,
    c7_seek_conversion_and_clamping.2.2.1 10000 siMono16 (by decide) (by decide)⟩,
   c7_seek_conversion_and_clamping.2.2.2.1 false siMono16 wsIdle 60000000 [] true true,
   ⟨by decide,
    c7_seek_conversion_and_clamping.2.2.2.2 false siMono16 wsIdle 60000000 []
      true true (by decide)⟩⟩

/-- Claim C8: float output is selected iff the source is wider than 16 bits
and the caller is the media UID; getTrack constructs the source with exactly
that policy flag; and the PCM-encoding key reported by both
`getTrackMetaData` and `getFormat` agrees with the selected output mode. -/
theorem c8_float_output_policy :
    (∀ bits uid : Nat,
        shouldExtractorOutputFloat bits uid = true ↔
          16 < bits ∧ uid = AID_MEDIA) ∧
    (∀ (st : Status) (index bits uid : Nat) (ofl : Bool),
        FLACExtractor_getTrack st index bits uid = some ofl →
        ofl = shouldExtractorOutputFloat bits uid) ∧
    (∀ (st : Status) (index : Nat) (tm : TrackMetadata) (bits uid : Nat)
        (tm2 : TrackMetadata) (enc : PcmEncoding),
        (FLACExtractor_getTrackMetaData st index tm bits uid).2 =
          some (tm2, enc) →
        (enc = PcmEncoding.pcmFloat ↔
          shouldExtractorOutputFloat bits uid = true)) ∧
    (∀ (mOutputFloat : Bool) (tm : TrackMetadata),
        (FLACSource_getFormat mOutputFloat tm).2.2 = PcmEncoding.pcmFloat ↔
          mOutputFloat = true) := by
  refine ⟨?_, ?_, ?_, ?_⟩
  · intro bits uid
    simp [shouldExtractorOutputFloat]
  · intro st index bits uid ofl h
    unfold FLACExtractor_getTrack at h
    split at h
    · exact absurd h (by simp)
    · simp only [Option.some.injEq] at h
      exact h.symm
  · intro st index tm bits uid tm2 enc h
    unfold FLACExtractor_getTrackMetaData at h
    split at h
    · exact absurd h (by simp)
    · simp only [Option.some.injEq, Prod.mk.injEq] at h
      rw [← h.2]
      cases hf : shouldExtractorOutputFloat bits uid <;> simp [hf]
  · intro mOutputFloat tm
    cases mOutputFloat <;> simp [FLACSource_getFormat]

/-- Witness for claim C8's theorem: a 24-bit source seen by the media UID
gets float output, and the same source seen by an ordinary app UID gets
16-bit output with a matching reported encoding. -/
theorem c8_float_output_policy_witness :
    (shouldExtractorOutputFloat 24 1013 = true ∧ 16 < 24 ∧ 1013 = AID_MEDIA) ∧
    (FLACExtractor_getTrack Status.OK 0 24 10000 = some false ∧
      false = shouldExtractorOutputFloat 24 10000) ∧
    ((FLACExtractor_getTrackMetaData Status.OK 0 mdMono16 24 10000).2 =
        some (mdMono16, PcmEncoding.pcm16bit) ∧
      (PcmEncoding.pcm16bit = PcmEncoding.pcmFloat ↔
        shouldExtractorOutputFloat 24 10000 = true)) ∧
    ((FLACSource_getFormat true mdMono16).2.2 = PcmEncoding.pcmFloat ↔
      true = true) :=
  ⟨⟨by decide, (c8_float_output_policy.1 24 1013).mp (by decide)⟩,
   ⟨by decide, c8_float_output_policy.2.1 Status.OK 0 24 10000 false (by decide)⟩,
   ⟨by decide,
    c8_float_output_policy.2.2.1 Status.OK 0 mdMono16 24 10000 mdMono16
      PcmEncoding.pcm16bit (by decide)⟩,
   c8_float_output_policy.2.2.2 true mdMono16⟩

/-- Claim C9: the sniffer recognizes a stream iff the 8-byte read at offset
0 returns exactly the fixed magic `fLaC 00 00 00 22`; on a match the
confidence is the constant 0.5, and otherwise no confidence is set. -/
theorem c9_sniff_recognizes_exactly_the_magic :
    ∀ r : Option (List Nat),
      ((SniffFLAC r).1 = true ↔ r = some flacMagic) ∧
      ((SniffFLAC r).2 =
        if (SniffFLAC r).1 = true then some (1 / 2 : Rat) else none) := by
  intro r
  cases r with
  | none => simp [SniffFLAC]
  | some header =>
      by_cases hc : header.length = 8 ∧ header = flacMagic
      · rcases hc with ⟨-, h2⟩
        subst h2
        simp [SniffFLAC, flacMagic]
      · have hne : header ≠ flacMagic := by
          intro he
          exact hc ⟨by rw [he]; rfl, he⟩
        simp [SniffFLAC, hc, hne]

/-- A drive step driven by a failing engine never reports success. -/
lemma driveStep_engine_failure (ch : Nat) (s : WriteState)
    (pushes : List FramePush) : (driveStep ch s pushes false).2 = false := by
  induction pushes generalizing s with
  | nil => rfl
  | cons p rest ih =>
      unfold driveStep
      rcases hw : writeCallback ch s p.header p.planes with ⟨s1, st⟩
      cases st <;> simp [ih]

/-- An engine failure during the drive step makes `readBuffer` return no
buffer. -/
lemma FLACParser_readBuffer_engine_failure (mOutputFloat : Bool)
    (si : StreamInfo) (s : WriteState) (doSeek : Bool) (sample : Nat)
    (pushes : List FramePush) (acquireOk : Bool) :
    (FLACParser_readBuffer mOutputFloat si s doSeek sample pushes false
        acquireOk).2 = none := by
  simp only [FLACParser_readBuffer]
  rw [if_pos]
  simp [driveStep_engine_failure]

/-- A buffer-pool acquisition failure makes `readBuffer` return no
buffer. -/
lemma FLACParser_readBuffer_acquire_failure (mOutputFloat : Bool)
    (si : StreamInfo) (s : WriteState) (doSeek : Bool) (sample : Nat)
    (pushes : List FramePush) (engineOk : Bool) :
    (FLACParser_readBuffer mOutputFloat si s doSeek sample pushes engineOk
        false).2 = none := by
  cases hres : (FLACParser_readBuffer mOutputFloat si s doSeek sample pushes
      engineOk false).2 with
  | none => rfl
  | some b =>
      obtain ⟨-, -, -, -, -, -, -, -, hacq, -⟩ :=
        FLACParser_readBuffer_some mOutputFloat si s doSeek sample pushes
          engineOk false b hres
      exact absurd hacq (by simp)

/-- Claim C10: every read reports exactly one of two outcomes — a present
buffer with OK, or a null buffer with END_OF_STREAM — and each failure mode
(engine/seek/decode failure, or buffer-pool acquisition failure) surfaces as
the same END_OF_STREAM status, never as a distinguishable error code. -/
theorem c10_read_reports_only_ok_or_end_of_stream :
    (∀ (mOutputFloat : Bool) (si : StreamInfo) (s : WriteState)
        (seekRequest : Option Int) (pushes : List FramePush)
        (engineOk acquireOk : Bool),
        ((FLACSource_read mOutputFloat si s seekRequest pushes engineOk
              acquireOk).2.status = MediaStatus.AMEDIA_OK ∧
          ((FLACSource_read mOutputFloat si s seekRequest pushes engineOk
              acquireOk).2.buffer).isSome = true) ∨
        ((FLACSource_read mOutputFloat si s seekRequest pushes engineOk
              acquireOk).2.status = MediaStatus.AMEDIA_ERROR_END_OF_STREAM ∧
          (FLACSource_read mOutputFloat si s seekRequest pushes engineOk
              acquireOk).2.buffer = none)) ∧
    (∀ (mOutputFloat : Bool) (si : StreamInfo) (s : WriteState)
        (seekRequest : Option Int) (pushes : List FramePush)
        (acquireOk : Bool),
        (FLACSource_read mOutputFloat si s seekRequest pushes false
            acquireOk).2.status = MediaStatus.AMEDIA_ERROR_END_OF_STREAM) ∧
    (∀ (mOutputFloat : Bool) (si : StreamInfo) (s : WriteState)
        (seekRequest : Option Int) (pushes : List FramePush)
        (engineOk : Bool),
        (FLACSource_read mOutputFloat si s seekRequest pushes engineOk
            false).2.status = MediaStatus.AMEDIA_ERROR_END_OF_STREAM) := by
  refine ⟨?_, ?_, ?_⟩
  · intro mOutputFloat si s seekRequest pushes engineOk acquireOk
    unfold FLACSource_read
    cases seekRequest with
    | none =>
        cases hb : (FLACParser_readBuffer mOutputFloat si s false 0 pushes
            engineOk acquireOk).2 <;> simp [hb]
    | some t =>
        cases hb : (FLACParser_readBuffer mOutputFloat si s true
            (seekTargetSample t si) pushes engineOk acquireOk).2 <;> simp [hb]
  · intro mOutputFloat si s seekRequest pushes acquireOk
    unfold FLACSource_read
    cases seekRequest <;> simp [FLACParser_readBuffer_engine_failure]
  · intro mOutputFloat si s seekRequest pushes engineOk
    unfold FLACSource_read
    cases seekRequest <;> simp [FLACParser_readBuffer_acquire_failure]

/-- Witness for claim C10's theorem: concrete reads under a failing engine
and under a failing buffer pool, both reporting END_OF_STREAM. -/
theorem c10_read_reports_only_ok_or_end_of_stream_witness :
    (((FLACSource_read false siMono16 wsIdle none [pushMono16] true
          true).2.status = MediaStatus.AMEDIA_OK ∧
        ((FLACSource_read false siMono16 wsIdle none [pushMono16] true
          true).2.buffer).isSome = true) ∨
      ((FLACSource_read false siMono16 wsIdle none [pushMono16] true
          true).2.status = MediaStatus.AMEDIA_ERROR_END_OF_STREAM ∧
        (FLACSource_read false siMono16 wsIdle none [pushMono16] true
          true).2.buffer = none)) ∧
    (FLACSource_read false siMono16 wsIdle none [pushMono16] false
        true).2.status = MediaStatus.AMEDIA_ERROR_END_OF_STREAM ∧
    (FLACSource_read false siMono16 wsIdle none [pushMono16] true
        false).2.status = MediaStatus.AMEDIA_ERROR_END_OF_STREAM :=
  ⟨c10_read_reports_only_ok_or_end_of_stream.1 false siMono16 wsIdle none
      [pushMono16] true true,
   c10_read_reports_only_ok_or_end_of_stream.2.1 false siMono16 wsIdle none
      [pushMono16] true,
   c10_read_reports_only_ok_or_end_of_stream.2.2 false siMono16 wsIdle none
      [pushMono16] true⟩

end FLACModel
